import Mathlib

/-!
Shallow embedding of the `prom_order_manager` order-notification bot
(`main.py`, `prom_client.py`) and proofs about its note-parsing,
fallback-lookup and order-processing pipeline.

Python strings are modelled as Lean `String`; Python `dict`s that the code
iterates or `get`s are modelled as insertion-ordered association lists
`List (String × String)` with unique keys; Python truthiness of a string is
`s ≠ ""`, of `None`-able values is `Option` plus non-emptiness.  All string
primitives used by the code (`split`, `rsplit`, `strip`, `lower`,
`startswith`, `join`, `in`) are re-implemented structurally over `List Char`
so that concrete runs reduce in the kernel.

The HTTP side (`PromClient.get_orders/get_product/set_order_status`) and the
Telegram bot are external collaborators; they are modelled as oracle
functions supplied in an environment record, and the side effects the code
performs through them are collected in an explicit `Effects` record.
-/

/-- One segment-splitting step of Python `str.split(sep)` for a one-character
separator, over the character list. -/
def splitOnCharAux (sep : Char) : List Char → List Char → List (List Char)
  | [], acc => [acc.reverse]
  | c :: cs, acc =>
    if c = sep then acc.reverse :: splitOnCharAux sep cs []
    else splitOnCharAux sep cs (c :: acc)

/-- Python `s.split(sep)` for a one-character separator (`note.split("|")`). -/
def splitOnChar (sep : Char) (s : String) : List String :=
  (splitOnCharAux sep s.data []).map String.mk

/-- Characters after the first occurrence of `sep`, if any.  Used for
Python `part.split(":", 1)[1]` (the code only indexes `[1]` after a
`startswith` guard that guarantees a colon is present). -/
def charsAfterFirst (sep : Char) : List Char → Option (List Char)
  | [] => none
  | c :: cs => if c = sep then some cs else charsAfterFirst sep cs

/-- Python `part.split(":", 1)[1]`: everything after the first colon
(`""` when there is no colon; all call sites are guarded so a colon exists). -/
def afterFirstColon (p : String) : String :=
  match charsAfterFirst ':' p.data with
  | some cs => String.mk cs
  | none => ""

/-- Whitespace stripped by Python `str.strip()` (the ASCII part; the inputs
this program strips only ever carry these). -/
def isPySpace (c : Char) : Bool :=
  c = ' ' || c = '\t' || c = '\n' || c = '\r' || c = '\x0b' || c = '\x0c'

/-- Python `s.strip()`. -/
def pyStrip (s : String) : String :=
  String.mk (((s.data.dropWhile isPySpace).reverse.dropWhile isPySpace).reverse)

/-- Python `str.lower()` on the character ranges that occur in this program:
ASCII `A`-`Z`, Latin-1 `À`-`Þ` (except `×`), Greek `Α`-`Ω` (except the
unassigned 0x3A2).  The source file's "localized" label literals are mojibake
and contain Latin-1 and Greek capitals, which Python lowercases. -/
def pyLowerChar (c : Char) : Char :=
  if 0x41 ≤ c.toNat ∧ c.toNat ≤ 0x5A then Char.ofNat (c.toNat + 32)
  else if 0xC0 ≤ c.toNat ∧ c.toNat ≤ 0xDE ∧ c.toNat ≠ 0xD7 then Char.ofNat (c.toNat + 32)
  else if 0x391 ≤ c.toNat ∧ c.toNat ≤ 0x3A9 ∧ c.toNat ≠ 0x3A2 then Char.ofNat (c.toNat + 32)
  else c

/-- Python `s.lower()`. -/
def pyLower (s : String) : String :=
  String.mk (s.data.map pyLowerChar)

/-- Bool prefix test on character lists. -/
def charsStartWith : List Char → List Char → Bool
  | [], _ => true
  | _ :: _, [] => false
  | a :: as, b :: bs => a = b && charsStartWith as bs

/-- Python `s.startswith(pre)`. -/
def pyStartsWith (s pre : String) : Bool :=
  charsStartWith pre.data s.data

/-- Python `sep.join(parts)`. -/
def strJoin (sep : String) : List String → String
  | [] => ""
  | [x] => x
  | x :: y :: rest => x ++ sep ++ strJoin sep (y :: rest)

/-- Python `d.get(k)` on an insertion-ordered dict modelled as an
association list with unique keys. -/
def dictGet? (d : List (String × String)) (k : String) : Option String :=
  (d.find? (fun p => p.1 == k)).map (·.2)

/-- Truthiness of a Python value that is either a string or `None`. -/
def truthyOptStr : Option String → Bool
  | none => false
  | some s => !(s == "")

/-- Python `a or b` for `a` a string-or-`None` and `b` a string:
`a` when truthy, else `b`. -/
def pyOr (a : Option String) (b : String) : String :=
  match a with
  | some s => if s == "" then b else s
  | none => b

/-- An upstream order id as it arrives in the JSON: an integer or a string.
`str()` maps both onto the same string form (`main.py` applies `str` before
every ledger operation). -/
inductive PyId where
  | int : Int → PyId
  | str : String → PyId
deriving Repr, DecidableEq

/-- Python `str(id)`. -/
def pyStr : PyId → String
  | .int n => toString n
  | .str s => s

-- ## The note parser (`main.py` lines 170-200, `_parse_private_note`)

/-- The source file's first price label, `"price:"`, and its mojibake
"localized" twin exactly as the bytes stand in `main.py` line 185. -/
def RU_PRICE : String := "—Ü–µ–Ω–∞:"

/-- Mojibake "localized" art label, `main.py` line 187. -/
def RU_ART : String := "–∞—Ä—Ç:"

/-- Mojibake "localized" supplier label, `main.py` line 193. -/
def RU_SUP : String := "–ø–æ—Å—Ç–∞–≤—â–∏–∫:"

/-- `part_lower.startswith("price:") or part_lower.startswith(RU_PRICE)`. -/
def isPriceSeg (p : String) : Bool :=
  pyStartsWith (pyLower p) "price:" || pyStartsWith (pyLower p) RU_PRICE

/-- `part_lower.startswith("art:") or part_lower.startswith(RU_ART)`. -/
def isArtSeg (p : String) : Bool :=
  pyStartsWith (pyLower p) "art:" || pyStartsWith (pyLower p) RU_ART

/-- `part_lower.startswith("supplier:") or part_lower.startswith(RU_SUP)`. -/
def isSupLabelSeg (p : String) : Bool :=
  pyStartsWith (pyLower p) "supplier:" || pyStartsWith (pyLower p) RU_SUP

/-- `part.split(":", 1)[1].strip()` — the value of a labelled segment. -/
def segVal (p : String) : String := pyStrip (afterFirstColon p)

/-- The `clean_part` of the supplier branch (`main.py` 192-194): the segment
with a leading supplier label stripped if present. -/
def supClean (p : String) : String :=
  if isSupLabelSeg p then segVal p else p

/-- The result dict of `_parse_private_note`: a key is `none` when the
Python dict lacks it. -/
structure NoteData where
  purchase_price : Option String := none
  model : Option String := none
  supplier : Option String := none
deriving Repr, DecidableEq

/-- The `for part in parts` loop of `_parse_private_note`, threading the
mutable `data["purchase_price"]`, `data["model"]` and `supplier_parts`.
After the loop the code always assigns `data["supplier"] = " | ".join(...)`. -/
def parseLoop : List String → Option String → Option String → List String → NoteData
  | [], price, model, supParts =>
    { purchase_price := price, model := model, supplier := some (strJoin " | " supParts) }
  | p :: rest, price, model, supParts =>
    if isPriceSeg p then
      parseLoop rest (some (segVal p)) model supParts
    else if isArtSeg p then
      parseLoop rest price (some (segVal p)) supParts
    else
      parseLoop rest price model
        (if supClean p == "" then supParts else supParts ++ [supClean p])

/-- `_parse_private_note(note)` (`main.py` 170-200).  `none` models Python
`None`; both `None` and `""` are falsy, so `if not note: return {}` fires. -/
def parsePrivateNote (note : Option String) : NoteData :=
  match note with
  | none => {}
  | some s =>
    if s == "" then {}
    else parseLoop ((splitOnChar '|' s).map pyStrip) none none []

-- ## Spec-side restatements of the parser (for the refinement claim)

/-- Last element of a list of assigned values, else the initial dict state:
the routing loop's repeated `data[k] = v` keeps the last assignment. -/
def lastOr : List String → Option String → Option String
  | [], d => d
  | x :: rest, _ => lastOr rest (some x)

/-- The spec's "splits on `'|'` into trimmed segments". -/
def specSegs (s : String) : List String :=
  (splitOnChar '|' s).map pyStrip

/-- A segment's contribution to the supplier field under the claim's
literal routing rule: every non-price non-art segment is accumulated
(after stripping a leading supplier label), empty or not. -/
def supSegPartClaimed (p : String) : Option String :=
  if isPriceSeg p then none
  else if isArtSeg p then none
  else some (supClean p)

/-- A segment's contribution to the supplier field as the code computes it:
as `supSegPartClaimed`, except a segment whose cleaned text is empty is
dropped (`if clean_part:` in `main.py` line 196). -/
def supSegPart (p : String) : Option String :=
  if isPriceSeg p then none
  else if isArtSeg p then none
  else if supClean p == "" then none else some (supClean p)

/-- The claim's routing rule for the whole note, stated from the spec's words
(claim C3 as written, empty segments accumulated too). -/
def specParseClaimed (note : Option String) : NoteData :=
  match note with
  | none => {}
  | some s =>
    if s == "" then {}
    else
      { purchase_price := lastOr (((specSegs s).filter isPriceSeg).map segVal) none,
        model := lastOr (((specSegs s).filter (fun p => !isPriceSeg p && isArtSeg p)).map segVal) none,
        supplier := some (strJoin " | " ((specSegs s).filterMap supSegPartClaimed)) }

/-- The amended routing rule: as `specParseClaimed` but segments that are
empty after trimming/label-stripping are dropped from the supplier parts. -/
def specParseAmended (note : Option String) : NoteData :=
  match note with
  | none => {}
  | some s =>
    if s == "" then {}
    else
      { purchase_price := lastOr (((specSegs s).filter isPriceSeg).map segVal) none,
        model := lastOr (((specSegs s).filter (fun p => !isPriceSeg p && isArtSeg p)).map segVal) none,
        supplier := some (strJoin " | " ((specSegs s).filterMap supSegPart)) }

-- ## Data model of the upstream JSON objects

/-- An image entry of a product's `images` list; `url` may be missing. -/
structure Image where
  url : Option String
deriving Repr, DecidableEq

/-- A product as returned by `PromClient.get_product` (`prom_client.py` 88-100):
`data.get("product", {})`.  The empty dict and a failed request are both falsy
at the caller (`if product_data:`), so both are modelled as `none` at the
oracle; this record is a present, non-empty product. -/
structure Product where
  private_note : Option String := none
  personal_notes : Option String := none
  variation_base_id : Option Nat := none
  images : List Image := []
deriving Repr, DecidableEq

/-- A line item of an order's `products` list. -/
structure Item where
  id : Nat
  sku : Option String := none
  name : String := ""
  quantity : Nat := 1
deriving Repr, DecidableEq

/-- An order as returned by `PromClient.get_orders`.  `delivery_provider_data`
is the nested dict (`[]` models a missing or empty dict, both falsy);
`delivery_note` models `order.get("delivery_note")`. -/
structure Order where
  id : PyId
  delivery_provider_data : List (String × String) := []
  delivery_note : Option String := none
  client_first_name : String := ""
  client_last_name : String := ""
  products : List Item := []
deriving Repr, DecidableEq

/-- `delivery_data.get(key)` followed by the walrus truthiness test
`if val := delivery_data.get(key):` — a missing key or an empty value both
move on to the next key. -/
def truthyGet (d : List (String × String)) (k : String) : Option String :=
  match dictGet? d k with
  | some v => if v == "" then none else some v
  | none => none

/-- `_extract_ttn(order)` (`main.py` 158-168): try
`declaration_number`, `ttn`, `invoice_number` in `delivery_provider_data`
(only when that dict is truthy), else fall back to `delivery_note`. -/
def extractTtn (o : Order) : Option String :=
  if o.delivery_provider_data.isEmpty then o.delivery_note
  else
    match truthyGet o.delivery_provider_data "declaration_number" with
    | some v => some v
    | none =>
      match truthyGet o.delivery_provider_data "ttn" with
      | some v => some v
      | none =>
        match truthyGet o.delivery_provider_data "invoice_number" with
        | some v => some v
        | none => o.delivery_note

-- ## The local fallback store (`main.py` 279-296)

/-- `sku.rsplit("-", 1)[0]`: everything before the last `'-'` (the whole
string when there is none; the caller guards with `"-" in sku`). -/
def skuBase (sku : String) : String :=
  match charsAfterFirst '-' sku.data.reverse with
  | some cs => String.mk cs.reverse
  | none => sku

/-- The fallback-note lookup of `_process_single_order` (`main.py` 283-296):
`local_notes.get(sku, "")`, and when that is falsy and the SKU contains a
`'-'`, the first stored key (in stored order) starting with the base SKU
wins; `""` when nothing matches. -/
def lookupLocalNote (notes : List (String × String)) (sku : String) : String :=
  let note := (dictGet? notes sku).getD ""
  if note == "" && sku.data.contains '-' then
    match notes.find? (fun p => pyStartsWith p.1 (skuBase sku)) with
    | some p => p.2
    | none => ""
  else note

-- ## Note resolution per line item (`main.py` 259-301)

/-- `product_data.get("private_note") or product_data.get("personal_notes") or ""`. -/
def ownNote (pd : Product) : String :=
  pyOr pd.private_note (pyOr pd.personal_notes "")

/-- The parent-product attempt (`main.py` 268-276): fires only when
`variation_base_id` is truthy (present and non-zero); returns the parent's
note text (possibly `""`) and the list of product ids fetched. -/
def parentLookup (getProduct : Nat → Option Product) (pd : Product) : String × List Nat :=
  match pd.variation_base_id with
  | some parentId =>
    if parentId ≠ 0 then
      match getProduct parentId with
      | some ppd => (ownNote ppd, [parentId])
      | none => ("", [parentId])
    else ("", [])
  | none => ("", [])

/-- The local-fallback attempt (`main.py` 279-296): only when the item has a
truthy SKU. -/
def skuFallback (notes : List (String × String)) (item : Item) : String :=
  match item.sku with
  | some sku => if sku == "" then "" else lookupLocalNote notes sku
  | none => ""

/-- The full name-resolution chain of `_process_single_order` for one line
item, given the already-fetched product (`none` when `get_product` returned
nothing or an empty dict): own note, else parent note, else local fallback.
When the fetch returned nothing the whole block is skipped and the note is
`""`.  Returns the note and the extra product ids fetched (the parent). -/
def resolveNote (getProduct : Nat → Option Product)
    (notes : List (String × String)) (item : Item) (pd? : Option Product) :
    String × List Nat :=
  match pd? with
  | none => ("", [])
  | some pd =>
    let n1 := ownNote pd
    if n1 == "" then
      let pr := parentLookup getProduct pd
      if pr.1 == "" then (skuFallback notes item, pr.2)
      else pr
    else (n1, [])

-- ## Message rendering (`main.py` 304-326)

/-- Sentinel `main.py` line 306 (the literal mojibake bytes of the source). -/
def UNKNOWN_SUPPLIER : String := "–ù–µ–∏–∑–≤–µ—Å—Ç–Ω—ã–π –ø–æ—Å—Ç–∞–≤—â–∏–∫"

/-- Sentinel `main.py` line 307. -/
def PRICE_NOT_SPECIFIED : String := "–¶–µ–Ω–∞ –Ω–µ —É–∫–∞–∑–∞–Ω–∞"

/-- Sentinel `main.py` line 308. -/
def ART_NOT_FOUND : String := "–ê—Ä—Ç–∏–∫—É–ª –Ω–µ –Ω–∞–π–¥–µ–Ω"

/-- Unit suffix of the quantity annotation, `main.py` line 318. -/
def QTY_UNIT : String := " –µ–¥.)"

/-- `note_data.get("supplier", UNKNOWN_SUPPLIER)`. -/
def supplierField (nd : NoteData) : String :=
  nd.supplier.getD UNKNOWN_SUPPLIER

/-- `note_data.get("purchase_price", PRICE_NOT_SPECIFIED)`. -/
def priceField (nd : NoteData) : String :=
  nd.purchase_price.getD PRICE_NOT_SPECIFIED

/-- `note_data.get("model") or item.get("sku") or ART_NOT_FOUND`. -/
def modelField (nd : NoteData) (item : Item) : String :=
  pyOr nd.model (pyOr item.sku ART_NOT_FOUND)

/-- The five-line notification text (`main.py` 312-326). -/
def renderMessage (nd : NoteData) (item : Item) (ttn clientName : String) : String :=
  let sizeColorLine :=
    item.name ++ (if item.quantity > 1 then " (" ++ toString item.quantity ++ QTY_UNIT else "")
  supplierField nd ++ "\n" ++ sizeColorLine ++ "\n" ++ modelField nd item ++ "\n" ++
    priceField nd ++ "\n" ++ ttn ++ " " ++ clientName

/-- `images[0].get("url")` guarded by `if product_data:` and `if images:`
(`main.py` 329-335). -/
def itemImageUrl (pd? : Option Product) : Option String :=
  match pd? with
  | some pd =>
    match pd.images with
    | img :: _ => img.url
    | [] => none
  | none => none

-- ## Telegram dispatch per item (`main.py` 337-353)

/-- The sends attempted for one item: photo-send attempts `(url, caption)`
and text-send attempts. -/
structure SendResult where
  photoSends : List (String × String) := []
  textSends : List String := []
deriving Repr, DecidableEq

/-- `sent_photo = False; if image_url: try send_photo ... except: pass;`
`if not sent_photo: send_message`.  `photoOk url` is the oracle for whether
`bot.send_photo` succeeds; a failed photo send still counts as an attempt
and is followed by exactly one text send. -/
def sendPhase (photoOk : String → Bool) (imageUrl : Option String) (message : String) :
    SendResult :=
  match imageUrl with
  | some u =>
    if u == "" then { photoSends := [], textSends := [message] }
    else if photoOk u then { photoSends := [(u, message)], textSends := [] }
    else { photoSends := [(u, message)], textSends := [message] }
  | none => { photoSends := [], textSends := [message] }

-- ## Processor state, environment and effects

/-- `TARGET_STATUSES` (`main.py` line 35). -/
def TARGET_STATUSES : List String := ["received", "processing", "custom-133340"]

/-- `AUTO_ACCEPT_NEW` (`main.py` line 36). -/
def AUTO_ACCEPT_NEW : Bool := true

/-- The mutable state of `OrderProcessor` that the claims are about:
the processed-order ledger (a set of strings, persisted on every add),
the silent-startup flag, and the local fallback notes. -/
structure PState where
  processed_orders : List String := []
  startup_mode : Bool := true
  local_notes : List (String × String) := []
deriving Repr, DecidableEq

/-- Set insertion into the ledger list (Python `set.add`). -/
def insertStr (l : List String) (x : String) : List String :=
  if l.contains x then l else x :: l

/-- `_save_processed_order(order_id)` (`main.py` 153-156): adds
`str(order_id)` to the set and rewrites the JSON file.  Both call sites pass
a value that is already a `str`, on which `str` is the identity, so the
argument is a `String` here; the file write is the `ledgerSaves` effect of
the caller. -/
def saveProcessedOrder (st : PState) (order_id : String) : PState :=
  { st with processed_orders := insertStr st.processed_orders order_id }

/-- The observable outbound actions of one processing step: product fetches
(by product id), photo-send attempts `(url, caption)`, text-send attempts,
`set_order_status` calls `(order id as passed, status)`, and ledger writes
(order ids persisted to the processed-orders file). -/
structure Effects where
  fetches : List Nat := []
  photoSends : List (String × String) := []
  textSends : List String := []
  statusCalls : List (String × String) := []
  ledgerSaves : List String := []
deriving Repr, DecidableEq

/-- No outbound actions. -/
def noEffects : Effects := {}

/-- Sequencing of effect records. -/
def Effects.app (a b : Effects) : Effects :=
  { fetches := a.fetches ++ b.fetches,
    photoSends := a.photoSends ++ b.photoSends,
    textSends := a.textSends ++ b.textSends,
    statusCalls := a.statusCalls ++ b.statusCalls,
    ledgerSaves := a.ledgerSaves ++ b.ledgerSaves }

/-- Oracle for one `PromClient` (one shop token): what `get_orders` returns
per status, what `get_product` returns per product id (`none` for a failed
request or an empty `product` dict), and whether `set_order_status`
reports success (its result is only logged by the caller). -/
structure ClientEnv where
  getOrders : String → List Order
  getProduct : Nat → Option Product
  setOrderStatusOk : String → String → Bool

-- ## Processing one line item (`main.py` 259-353)

/-- The body of the `for item in order.get("products", [])` loop:
fetch the product, resolve the note, parse it, render the message,
pick the image URL and dispatch.  Produces only fetch and send effects. -/
def processItem (getProduct : Nat → Option Product) (localNotes : List (String × String))
    (photoOk : String → Bool) (ttn clientName : String) (item : Item) : Effects :=
  let pd? := getProduct item.id
  let r := resolveNote getProduct localNotes item pd?
  let msg := renderMessage (parsePrivateNote (some r.1)) item ttn clientName
  let send := sendPhase photoOk (itemImageUrl pd?) msg
  { fetches := item.id :: r.2, photoSends := send.photoSends,
    textSends := send.textSends, statusCalls := [], ledgerSaves := [] }

/-- The rendered message for one item (the same computation `processItem`
dispatches). -/
def itemMessage (getProduct : Nat → Option Product) (localNotes : List (String × String))
    (ttn clientName : String) (item : Item) : String :=
  renderMessage (parsePrivateNote (some (resolveNote getProduct localNotes item (getProduct item.id)).1))
    item ttn clientName

/-- The item loop over a product list. -/
def processItems (getProduct : Nat → Option Product) (localNotes : List (String × String))
    (photoOk : String → Bool) (ttn clientName : String) : List Item → Effects
  | [] => noEffects
  | it :: rest =>
    (processItem getProduct localNotes photoOk ttn clientName it).app
      (processItems getProduct localNotes photoOk ttn clientName rest)

-- ## Processing one order (`main.py` 236-361, `_process_single_order`)

/-- `_process_single_order(client, order)`: skip when `str(order.id)` is in
the ledger; skip when no truthy TTN; in startup mode silently save; else
notify every line item, call `set_order_status(order_id, "received")`
(result only logged) and save the order id unconditionally. -/
def processSingleOrder (c : ClientEnv) (photoOk : String → Bool)
    (st : PState) (order : Order) : PState × Effects :=
  let order_id := pyStr order.id
  if st.processed_orders.contains order_id then (st, noEffects)
  else if truthyOptStr (extractTtn order) then
    if st.startup_mode then
      (saveProcessedOrder st order_id, { noEffects with ledgerSaves := [order_id] })
    else
      let clientName := pyStrip (order.client_first_name ++ " " ++ order.client_last_name)
      let ttnVal := (extractTtn order).getD ""
      let itemEffs := processItems c.getProduct st.local_notes photoOk ttnVal clientName order.products
      let _ok := c.setOrderStatusOk order_id "received"
      (saveProcessedOrder st order_id,
        itemEffs.app
          { noEffects with
            statusCalls := [(order_id, "received")]
            ledgerSaves := [order_id] })
  else (st, noEffects)

-- ## The polling cycle (`main.py` 202-234 and 403-433)

/-- The inner loop of `process_orders` over one status's order list. -/
def processOrderList (c : ClientEnv) (photoOk : String → Bool) :
    List Order → PState → PState × Effects
  | [], st => (st, noEffects)
  | o :: os, st =>
    let r := processSingleOrder c photoOk st o
    let rest := processOrderList c photoOk os r.1
    (rest.1, r.2.app rest.2)

/-- The loop of `process_orders` over `TARGET_STATUSES` for one client. -/
def processStatusList (c : ClientEnv) (photoOk : String → Bool) :
    List String → PState → PState × Effects
  | [], st => (st, noEffects)
  | status :: rest, st =>
    let r := processOrderList c photoOk (c.getOrders status) st
    let r2 := processStatusList c photoOk rest r.1
    (r2.1, r.2.app r2.2)

/-- `process_orders` (`main.py` 223-234) over the client list. -/
def processOrdersAll (photoOk : String → Bool) :
    List ClientEnv → PState → PState × Effects
  | [], st => (st, noEffects)
  | c :: cs, st =>
    let r := processStatusList c photoOk TARGET_STATUSES st
    let r2 := processOrdersAll photoOk cs r.1
    (r2.1, r.2.app r2.2)

/-- `auto_accept_new_orders`'s inner loop (`main.py` 212-219): one
`set_order_status(order_id, "received")` call per pending order (the raw id
is passed; `set_order_status` casts it with `int`, recorded here in its
string form). -/
def autoAcceptOrders : List Order → Effects
  | [] => noEffects
  | o :: os =>
    (Effects.app { noEffects with statusCalls := [(pyStr o.id, "received")] }
      (autoAcceptOrders os))

/-- `auto_accept_new_orders` over the client list (`main.py` 202-221). -/
def autoAcceptClients : List ClientEnv → Effects
  | [] => noEffects
  | c :: cs => (autoAcceptOrders (c.getOrders "pending")).app (autoAcceptClients cs)

/-- `auto_accept_new_orders` (guarded by `AUTO_ACCEPT_NEW`). -/
def autoAcceptNewOrders (clients : List ClientEnv) : Effects :=
  if AUTO_ACCEPT_NEW then autoAcceptClients clients else noEffects

/-- The per-cycle environment: the shops, the photo-send oracle, and the
optional fallback-notes file uploaded through Telegram this cycle. -/
structure CycleEnv where
  clients : List ClientEnv
  photoOk : String → Bool
  telegramNotes : Option (List (String × String)) := none

/-- `check_telegram_updates` (`main.py` 363-401): when a
`prom_import_data.json` upload arrived, the fallback notes are reloaded
wholesale; nothing else in the processor state changes. -/
def checkTelegramUpdates (env : CycleEnv) (st : PState) : PState :=
  match env.telegramNotes with
  | some notes => { st with local_notes := notes }
  | none => st

/-- One iteration of the `while True` loop of `run` (`main.py` 415-433):
Telegram check, auto-accept, full notify scan, then
`if self.startup_mode: self.startup_mode = False`. -/
def runCycle (env : CycleEnv) (st : PState) : PState × Effects :=
  let st1 := checkTelegramUpdates env st
  let acceptEffs := autoAcceptNewOrders env.clients
  let r := processOrdersAll env.photoOk env.clients st1
  let st2 := if r.1.startup_mode then { r.1 with startup_mode := false } else r.1
  (st2, acceptEffs.app r.2)

-- ## First-run seeding (`main.py` 123-142, `_mark_current_orders_processed`)

/-- The seeding loop over one status's orders: `processed_orders.add(str(order.get("id")))`. -/
def seedOrders : List Order → List String → List String
  | [], acc => acc
  | o :: os, acc => seedOrders os (insertStr acc (pyStr o.id))

/-- The seeding loop over `TARGET_STATUSES` for one client. -/
def seedStatusList (c : ClientEnv) : List String → List String → List String
  | [], acc => acc
  | status :: rest, acc => seedStatusList c rest (seedOrders (c.getOrders status) acc)

/-- The seeding loop over the clients. -/
def seedClients : List ClientEnv → List String → List String
  | [], acc => acc
  | c :: cs, acc => seedClients cs (seedStatusList c TARGET_STATUSES acc)

/-- `_mark_current_orders_processed` — first-run seeding: every order
currently visible in the monitored statuses is added to the ledger in
string form, then the set is written to disk once. -/
def markCurrentOrdersProcessed (clients : List ClientEnv) (st : PState) : PState :=
  { st with processed_orders := seedClients clients st.processed_orders }

-- ## Concrete fixtures for witnesses

/-- A concrete product with a note and an image. -/
def prodA : Product :=
  { private_note := some "Price: 100 | Supplier: Acme | Art: X1",
    images := [{ url := some "http://img/1.jpg" }] }

/-- A concrete product with no note fields at all. -/
def prodBare : Product := { images := [] }

/-- A concrete line item. -/
def itemA : Item := { id := 5, sku := some "MIN-123-4", name := "Shoe", quantity := 2 }

/-- A concrete order with a declaration number, one line item, id 123. -/
def orderA : Order :=
  { id := .int 123,
    delivery_provider_data := [("declaration_number", "59000123456789")],
    client_first_name := "Ivan", client_last_name := "Petrov",
    products := [itemA] }

/-- The same order re-presented with its id as the string `"123"`. -/
def orderAStr : Order := { orderA with id := .str "123" }

/-- An order with no shipping reference anywhere. -/
def orderNoTtn : Order := { id := .int 7, products := [itemA] }

/-- A client oracle returning `prodA` for every product and a fixed order
list per monitored status. -/
def clientA : ClientEnv :=
  { getOrders := fun status => if status == "received" then [orderA] else [],
    getProduct := fun _ => some prodA,
    setOrderStatusOk := fun _ _ => true }

/-- A photo oracle on which every photo send succeeds. -/
def photoAllOk : String → Bool := fun _ => true

/-- A photo oracle on which every photo send fails. -/
def photoAllFail : String → Bool := fun _ => false

/-- Normal-mode state with an empty ledger. -/
def stNormal : PState := { processed_orders := [], startup_mode := false, local_notes := [] }

/-- Startup-mode state with an empty ledger. -/
def stStartup : PState := { processed_orders := [], startup_mode := true, local_notes := [] }

/-- State whose ledger already holds `"123"`. -/
def stHas123 : PState := { processed_orders := ["123"], startup_mode := false, local_notes := [] }

/-- A one-client cycle environment. -/
def cycleEnvA : CycleEnv := { clients := [clientA], photoOk := photoAllOk }



-- ## Shared helper lemmas

theorem contains_insertStr_self (l : List String) (x : String) :
    (insertStr l x).contains x = true := by
  unfold insertStr
  split
  · assumption
  · simp

theorem contains_insertStr_of (l : List String) (x y : String)
    (h : l.contains x = true) : (insertStr l y).contains x = true := by
  unfold insertStr
  split
  · exact h
  · have hx : x ∈ l := by simpa using h
    simp [hx]

theorem saveProcessedOrder_contains_self (st : PState) (oid : String) :
    (saveProcessedOrder st oid).processed_orders.contains oid = true :=
  contains_insertStr_self _ _

theorem saveProcessedOrder_mono (st : PState) (oid x : String)
    (h : st.processed_orders.contains x = true) :
    (saveProcessedOrder st oid).processed_orders.contains x = true :=
  contains_insertStr_of _ _ _ h

/-- Branch equation: an order whose string id is in the ledger is a no-op. -/
theorem processSingleOrder_skip (c : ClientEnv) (pOk : String → Bool)
    (st : PState) (o : Order)
    (hmem : st.processed_orders.contains (pyStr o.id) = true) :
    processSingleOrder c pOk st o = (st, noEffects) := by
  unfold processSingleOrder
  simp only [hmem, eq_self_iff_true, if_true, Bool.false_eq_true, if_false]

/-- Branch equation: no truthy TTN, not yet processed: a no-op. -/
theorem processSingleOrder_noTtn (c : ClientEnv) (pOk : String → Bool)
    (st : PState) (o : Order)
    (hmem : st.processed_orders.contains (pyStr o.id) = false)
    (httn : truthyOptStr (extractTtn o) = false) :
    processSingleOrder c pOk st o = (st, noEffects) := by
  unfold processSingleOrder
  simp only [hmem, httn, eq_self_iff_true, if_true, Bool.false_eq_true, if_false]

/-- Branch equation: startup mode silently saves the order id. -/
theorem processSingleOrder_startup (c : ClientEnv) (pOk : String → Bool)
    (st : PState) (o : Order)
    (hmem : st.processed_orders.contains (pyStr o.id) = false)
    (httn : truthyOptStr (extractTtn o) = true)
    (hsm : st.startup_mode = true) :
    processSingleOrder c pOk st o =
      (saveProcessedOrder st (pyStr o.id),
        { noEffects with ledgerSaves := [pyStr o.id] }) := by
  unfold processSingleOrder
  simp only [hmem, httn, hsm, eq_self_iff_true, if_true, Bool.false_eq_true, if_false]

/-- Branch equation: the normal notify path. -/
theorem processSingleOrder_notify (c : ClientEnv) (pOk : String → Bool)
    (st : PState) (o : Order)
    (hmem : st.processed_orders.contains (pyStr o.id) = false)
    (httn : truthyOptStr (extractTtn o) = true)
    (hsm : st.startup_mode = false) :
    processSingleOrder c pOk st o =
      (saveProcessedOrder st (pyStr o.id),
        (processItems c.getProduct st.local_notes pOk ((extractTtn o).getD "")
            (pyStrip (o.client_first_name ++ " " ++ o.client_last_name)) o.products).app
          { noEffects with statusCalls := [(pyStr o.id, "received")]
                           ledgerSaves := [pyStr o.id] }) := by
  unfold processSingleOrder
  simp only [hmem, httn, hsm, eq_self_iff_true, if_true, Bool.false_eq_true, if_false]

theorem processSingleOrder_mono (c : ClientEnv) (pOk : String → Bool)
    (st : PState) (o : Order) (x : String)
    (h : st.processed_orders.contains x = true) :
    ((processSingleOrder c pOk st o).1).processed_orders.contains x = true := by
  cases hmem : st.processed_orders.contains (pyStr o.id) with
  | true => rw [processSingleOrder_skip c pOk st o hmem]; exact h
  | false =>
    cases httn : truthyOptStr (extractTtn o) with
    | false => rw [processSingleOrder_noTtn c pOk st o hmem httn]; exact h
    | true =>
      cases hsm : st.startup_mode with
      | true =>
        rw [processSingleOrder_startup c pOk st o hmem httn hsm]
        exact saveProcessedOrder_mono _ _ _ h
      | false =>
        rw [processSingleOrder_notify c pOk st o hmem httn hsm]
        exact saveProcessedOrder_mono _ _ _ h

theorem processOrderList_mono (c : ClientEnv) (pOk : String → Bool)
    (os : List Order) (st : PState) (x : String)
    (h : st.processed_orders.contains x = true) :
    ((processOrderList c pOk os st).1).processed_orders.contains x = true := by
  induction os generalizing st with
  | nil => exact h
  | cons o rest ih =>
    simpa [processOrderList] using ih _ (processSingleOrder_mono c pOk st o x h)

theorem processStatusList_mono (c : ClientEnv) (pOk : String → Bool)
    (statuses : List String) (st : PState) (x : String)
    (h : st.processed_orders.contains x = true) :
    ((processStatusList c pOk statuses st).1).processed_orders.contains x = true := by
  induction statuses generalizing st with
  | nil => exact h
  | cons s rest ih =>
    simpa [processStatusList] using
      ih _ (processOrderList_mono c pOk (c.getOrders s) st x h)

theorem processOrdersAll_mono (pOk : String → Bool) (clients : List ClientEnv)
    (st : PState) (x : String) (h : st.processed_orders.contains x = true) :
    ((processOrdersAll pOk clients st).1).processed_orders.contains x = true := by
  induction clients generalizing st with
  | nil => exact h
  | cons c rest ih =>
    simpa [processOrdersAll] using
      ih _ (processStatusList_mono c pOk TARGET_STATUSES st x h)

theorem checkTelegramUpdates_processed (env : CycleEnv) (st : PState) :
    (checkTelegramUpdates env st).processed_orders = st.processed_orders := by
  unfold checkTelegramUpdates
  split <;> rfl

theorem checkTelegramUpdates_startup (env : CycleEnv) (st : PState) :
    (checkTelegramUpdates env st).startup_mode = st.startup_mode := by
  unfold checkTelegramUpdates
  split <;> rfl

theorem runCycle_processed_mono (env : CycleEnv) (st : PState) (x : String)
    (h : st.processed_orders.contains x = true) :
    ((runCycle env st).1).processed_orders.contains x = true := by
  have h1 : (checkTelegramUpdates env st).processed_orders.contains x = true := by
    rw [checkTelegramUpdates_processed]; exact h
  have h2 := processOrdersAll_mono env.photoOk env.clients (checkTelegramUpdates env st) x h1
  unfold runCycle
  cases hsm : (processOrdersAll env.photoOk env.clients (checkTelegramUpdates env st)).1.startup_mode <;>
    simp only [hsm, if_true, if_false, Bool.false_eq_true, ite_true, ite_false] <;>
    exact h2

theorem processItem_statusCalls (gp : Nat → Option Product)
    (ln : List (String × String)) (pOk : String → Bool) (ttn cn : String) (it : Item) :
    (processItem gp ln pOk ttn cn it).statusCalls = [] := rfl

theorem processItem_ledgerSaves (gp : Nat → Option Product)
    (ln : List (String × String)) (pOk : String → Bool) (ttn cn : String) (it : Item) :
    (processItem gp ln pOk ttn cn it).ledgerSaves = [] := rfl

theorem processItems_statusCalls (gp : Nat → Option Product)
    (ln : List (String × String)) (pOk : String → Bool) (ttn cn : String)
    (items : List Item) :
    (processItems gp ln pOk ttn cn items).statusCalls = [] := by
  induction items with
  | nil => rfl
  | cons it rest ih => simp [processItems, Effects.app, ih, processItem_statusCalls]

theorem processItems_ledgerSaves (gp : Nat → Option Product)
    (ln : List (String × String)) (pOk : String → Bool) (ttn cn : String)
    (items : List Item) :
    (processItems gp ln pOk ttn cn items).ledgerSaves = [] := by
  induction items with
  | nil => rfl
  | cons it rest ih => simp [processItems, Effects.app, ih, processItem_ledgerSaves]

theorem lastOr_cons (x : String) (l : List String) (d : Option String) :
    lastOr (x :: l) d = lastOr l (some x) := rfl

/-- Characterization of the routing loop: the final dict keeps the last
price/art assignment and accumulates the non-empty cleaned supplier parts in
order after the initial accumulator. -/
theorem parseLoop_eq (parts : List String) (price model : Option String)
    (sup : List String) :
    parseLoop parts price model sup =
      { purchase_price := lastOr ((parts.filter isPriceSeg).map segVal) price,
        model := lastOr ((parts.filter (fun p => !isPriceSeg p && isArtSeg p)).map segVal) model,
        supplier := some (strJoin " | " (sup ++ parts.filterMap supSegPart)) } := by
  induction parts generalizing price model sup with
  | nil => simp [parseLoop, lastOr]
  | cons p rest ih =>
    cases hp : isPriceSeg p with
    | true =>
      simp only [parseLoop, hp, if_true, if_false, Bool.false_eq_true, List.filter_cons,
        Bool.not_true, Bool.false_and, List.filterMap_cons, supSegPart, List.map_cons,
        lastOr_cons, ih]
    | false =>
      cases ha : isArtSeg p with
      | true =>
        simp only [parseLoop, hp, ha, if_true, if_false, Bool.false_eq_true,
          List.filter_cons, Bool.not_false, Bool.true_and, List.filterMap_cons,
          supSegPart, List.map_cons, lastOr_cons, ih]
      | false =>
        cases hc : supClean p == "" with
        | true =>
          simp only [parseLoop, hp, ha, hc, if_true, if_false, Bool.false_eq_true,
            List.filter_cons, Bool.not_false, Bool.true_and, List.filterMap_cons,
            supSegPart, ih]
        | false =>
          simp only [parseLoop, hp, ha, hc, if_true, if_false, Bool.false_eq_true,
            List.filter_cons, Bool.not_false, Bool.true_and, List.filterMap_cons,
            supSegPart, ih, List.append_assoc, List.singleton_append]

-- ## Claims

/-- Claim C1: an order whose string id is already in the processed-order
ledger is skipped by `_process_single_order` with no side effects at all —
no product fetch, no photo or text send, no status call, no ledger change —
and the ledger only ever grows, both within one order step and across whole
polling cycles, so re-presenting the same id in any later cycle is skipped
the same way. -/
theorem ledger_skip_no_side_effects :
    (∀ (c : ClientEnv) (pOk : String → Bool) (st : PState) (o : Order),
       st.processed_orders.contains (pyStr o.id) = true →
       processSingleOrder c pOk st o = (st, noEffects)) ∧
    (∀ (c : ClientEnv) (pOk : String → Bool) (st : PState) (o : Order) (x : String),
       st.processed_orders.contains x = true →
       ((processSingleOrder c pOk st o).1).processed_orders.contains x = true) ∧
    (∀ (env : CycleEnv) (st : PState) (x : String),
       st.processed_orders.contains x = true →
       ((runCycle env st).1).processed_orders.contains x = true) :=
  ⟨fun c pOk st o h => processSingleOrder_skip c pOk st o h,
   fun c pOk st o x h => processSingleOrder_mono c pOk st o x h,
   fun env st x h => runCycle_processed_mono env st x h⟩

/-- Witness for C1 at concrete inputs: `"123"` is in the ledger, so the
order is a no-op, and the id survives a whole later cycle. -/
theorem ledger_skip_no_side_effects_witness :
    processSingleOrder clientA photoAllOk stHas123 orderA = (stHas123, noEffects) ∧
    ((runCycle cycleEnvA stHas123).1).processed_orders.contains "123" = true :=
  ⟨ledger_skip_no_side_effects.1 clientA photoAllOk stHas123 orderA (by decide),
   ledger_skip_no_side_effects.2.2 cycleEnvA stHas123 "123" (by decide)⟩

/-- Claim C2: when `_extract_ttn` yields nothing truthy the order is a
complete no-op — no notification, no status call, no ledger write — with the
state returned unchanged (hence in every cycle until a reference appears);
and an order with none of the three delivery-provider keys truthy and no
`delivery_note` indeed yields no TTN. -/
theorem no_ttn_no_action :
    (∀ (c : ClientEnv) (pOk : String → Bool) (st : PState) (o : Order),
       truthyOptStr (extractTtn o) = false →
       processSingleOrder c pOk st o = (st, noEffects)) ∧
    (∀ o : Order,
       truthyGet o.delivery_provider_data "declaration_number" = none →
       truthyGet o.delivery_provider_data "ttn" = none →
       truthyGet o.delivery_provider_data "invoice_number" = none →
       o.delivery_note = none →
       truthyOptStr (extractTtn o) = false) := by
  constructor
  · intro c pOk st o h
    cases hmem : st.processed_orders.contains (pyStr o.id) with
    | true => exact processSingleOrder_skip c pOk st o hmem
    | false => exact processSingleOrder_noTtn c pOk st o hmem h
  · intro o h1 h2 h3 h4
    unfold extractTtn
    split
    · rw [h4]; rfl
    · simp only [h1, h2, h3, h4]
      rfl

/-- Witness for C2: an order with an empty delivery dict and no delivery
note is a no-op. -/
theorem no_ttn_no_action_witness :
    processSingleOrder clientA photoAllOk stNormal orderNoTtn = (stNormal, noEffects) ∧
    truthyOptStr (extractTtn orderNoTtn) = false :=
  ⟨no_ttn_no_action.1 clientA photoAllOk stNormal orderNoTtn (by decide),
   no_ttn_no_action.2 orderNoTtn (by decide) (by decide) (by decide) (by decide)⟩

/-- Claim C3 (counterexample): the claim's routing rule says EVERY non-price
non-art segment is accumulated into the supplier parts; the code drops
segments that are empty after trimming/label-stripping (`if clean_part:`),
so on `"a | | b"` the code and the claim's rule disagree. -/
theorem parse_every_segment_accumulated_cex :
    (parsePrivateNote (some "a | | b")).supplier = some "a | b" ∧
    (specParseClaimed (some "a | | b")).supplier = some "a |  | b" ∧
    parsePrivateNote (some "a | | b") ≠ specParseClaimed (some "a | | b") := by
  decide

/-- Claim C3 (amended): `_parse_private_note` splits on `'|'` into trimmed
segments and routes each by case-insensitive label — a price label sets
`purchase_price` to the text after the first colon trimmed (last one wins),
an art label sets `model` likewise, and every other segment, with a leading
supplier label stripped if present, is accumulated in original order into
`supplier` joined by `" | "` **provided the cleaned segment is non-empty**
(empty segments are dropped); the claim's concrete examples hold, and an
empty or absent note yields the empty record. -/
theorem parse_private_note_spec :
    (∀ note, parsePrivateNote note = specParseAmended note) ∧
    parsePrivateNote (some "Price: 100 | Supplier: Acme | Art: X1") =
      { purchase_price := some "100", model := some "X1", supplier := some "Acme" } ∧
    parsePrivateNote (some "Acme Corp | Price: 100") =
      { purchase_price := some "100", model := none, supplier := some "Acme Corp" } ∧
    parsePrivateNote (some "") = {} ∧
    parsePrivateNote none = {} := by
  refine ⟨?_, by decide, by decide, by decide, rfl⟩
  intro note
  cases note with
  | none => rfl
  | some s =>
    cases hs : s == "" with
    | true => simp only [parsePrivateNote, specParseAmended, hs, if_true]
    | false =>
      simp only [parsePrivateNote, specParseAmended, hs, Bool.false_eq_true, if_false]
      simpa [specSegs] using parseLoop_eq ((splitOnChar '|' s).map pyStrip) none none []

/-- Claim C6: while `startup_mode` is set, a qualifying order (not in the
ledger, truthy TTN) only adds its id to the ledger and persists it — zero
photo sends, zero text sends, zero status calls, zero product fetches — and
after any full `run` cycle the flag is false (it is cleared at the end of the
first cycle and never set again; the Telegram phase never touches it). -/
theorem startup_mode_silent_then_cleared :
    (∀ (c : ClientEnv) (pOk : String → Bool) (st : PState) (o : Order),
       st.startup_mode = true →
       st.processed_orders.contains (pyStr o.id) = false →
       truthyOptStr (extractTtn o) = true →
       processSingleOrder c pOk st o =
         (saveProcessedOrder st (pyStr o.id),
           { noEffects with ledgerSaves := [pyStr o.id] })) ∧
    (∀ (env : CycleEnv) (st : PState), ((runCycle env st).1).startup_mode = false) ∧
    (∀ (env : CycleEnv) (st : PState),
       (checkTelegramUpdates env st).startup_mode = st.startup_mode) := by
  refine ⟨fun c pOk st o hsm hmem httn => processSingleOrder_startup c pOk st o hmem httn hsm,
    ?_, fun env st => checkTelegramUpdates_startup env st⟩
  intro env st
  unfold runCycle
  cases hsm : (processOrdersAll env.photoOk env.clients (checkTelegramUpdates env st)).1.startup_mode with
  | true => simp only [hsm, if_true]
  | false => simp only [hsm, Bool.false_eq_true, if_false]

/-- Witness for C6: a concrete qualifying order in startup mode is silently
ledgered, and a concrete cycle ends with the flag off. -/
theorem startup_mode_silent_then_cleared_witness :
    processSingleOrder clientA photoAllOk stStartup orderA =
      (saveProcessedOrder stStartup "123", { noEffects with ledgerSaves := ["123"] }) ∧
    ((runCycle cycleEnvA stStartup).1).startup_mode = false :=
  ⟨startup_mode_silent_then_cleared.1 clientA photoAllOk stStartup orderA rfl
      (by decide) (by decide),
   startup_mode_silent_then_cleared.2.1 cycleEnvA stStartup⟩

/-- Claim C7: per line item, when the product has a truthy image URL and the
photo send fails, exactly one photo attempt and exactly one text-only send of
the same message happen; when the photo send succeeds, no text send happens;
when there is no truthy image URL, no photo attempt and exactly one text
send happen. -/
theorem photo_fallback_text_send :
    ∀ (gp : Nat → Option Product) (ln : List (String × String)) (pOk : String → Bool)
      (ttn cn : String) (item : Item),
    (∀ u, itemImageUrl (gp item.id) = some u → (u == "") = false → pOk u = false →
       (processItem gp ln pOk ttn cn item).photoSends = [(u, itemMessage gp ln ttn cn item)] ∧
       (processItem gp ln pOk ttn cn item).textSends = [itemMessage gp ln ttn cn item]) ∧
    (∀ u, itemImageUrl (gp item.id) = some u → (u == "") = false → pOk u = true →
       (processItem gp ln pOk ttn cn item).photoSends = [(u, itemMessage gp ln ttn cn item)] ∧
       (processItem gp ln pOk ttn cn item).textSends = []) ∧
    (truthyOptStr (itemImageUrl (gp item.id)) = false →
       (processItem gp ln pOk ttn cn item).photoSends = [] ∧
       (processItem gp ln pOk ttn cn item).textSends = [itemMessage gp ln ttn cn item]) := by
  intro gp ln pOk ttn cn item
  refine ⟨?_, ?_, ?_⟩
  · intro u hu hne hok
    constructor <;>
      simp only [processItem, itemMessage, sendPhase, hu, hne, hok,
        Bool.false_eq_true, if_false]
  · intro u hu hne hok
    constructor <;>
      simp only [processItem, itemMessage, sendPhase, hu, hne, hok,
        Bool.false_eq_true, if_false, if_true]
  · intro h
    cases hi : itemImageUrl (gp item.id) with
    | none =>
      constructor <;> simp only [processItem, itemMessage, sendPhase, hi]
    | some u =>
      have hue : (u == "") = true := by
        rw [hi] at h
        simpa [truthyOptStr] using h
      constructor <;>
        simp only [processItem, itemMessage, sendPhase, hi, hue, if_true]

/-- Witness for C7: with a failing photo oracle the item gets one photo
attempt and one text fallback; with a succeeding one, no text send; an
item whose product has no images gets a single text send. -/
theorem photo_fallback_text_send_witness :
    (processItem (fun _ => some prodA) [] photoAllFail "T1" "C1" itemA).textSends =
      [itemMessage (fun _ => some prodA) [] "T1" "C1" itemA] ∧
    (processItem (fun _ => some prodA) [] photoAllOk "T1" "C1" itemA).textSends = [] ∧
    (processItem (fun _ => some prodBare) [] photoAllOk "T1" "C1" itemA).textSends =
      [itemMessage (fun _ => some prodBare) [] "T1" "C1" itemA] :=
  ⟨((photo_fallback_text_send (fun _ => some prodA) [] photoAllFail "T1" "C1" itemA).1
      "http://img/1.jpg" (by decide) (by decide) (by decide)).2,
   ((photo_fallback_text_send (fun _ => some prodA) [] photoAllOk "T1" "C1" itemA).2.1
      "http://img/1.jpg" (by decide) (by decide) (by decide)).2,
   ((photo_fallback_text_send (fun _ => some prodBare) [] photoAllOk "T1" "C1" itemA).2.2
      (by decide)).2⟩

/-- Claim C8: on the notify path the order triggers exactly one
`set_order_status(order_id, "received")` call, the order id is saved to the
ledger afterwards unconditionally, and the whole step is independent of
whether the status call reports success or failure. -/
theorem status_then_unconditional_ledger_add :
    (∀ (c : ClientEnv) (pOk : String → Bool) (st : PState) (o : Order),
       st.processed_orders.contains (pyStr o.id) = false →
       truthyOptStr (extractTtn o) = true →
       st.startup_mode = false →
       ((processSingleOrder c pOk st o).2).statusCalls = [(pyStr o.id, "received")] ∧
       ((processSingleOrder c pOk st o).2).ledgerSaves = [pyStr o.id] ∧
       (processSingleOrder c pOk st o).1 = saveProcessedOrder st (pyStr o.id) ∧
       ((processSingleOrder c pOk st o).1).processed_orders.contains (pyStr o.id) = true) ∧
    (∀ (go : String → List Order) (gp : Nat → Option Product)
       (f g : String → String → Bool) (pOk : String → Bool) (st : PState) (o : Order),
       processSingleOrder ⟨go, gp, f⟩ pOk st o = processSingleOrder ⟨go, gp, g⟩ pOk st o) := by
  constructor
  · intro c pOk st o hmem httn hsm
    rw [processSingleOrder_notify c pOk st o hmem httn hsm]
    refine ⟨?_, ?_, rfl, saveProcessedOrder_contains_self st (pyStr o.id)⟩
    · simp [Effects.app, processItems_statusCalls]
    · simp [Effects.app, processItems_ledgerSaves]
  · intro go gp f g pOk st o
    rfl

/-- Witness for C8 on a concrete qualifying order. -/
theorem status_then_unconditional_ledger_add_witness :
    ((processSingleOrder clientA photoAllOk stNormal orderA).2).statusCalls =
      [("123", "received")] ∧
    ((processSingleOrder clientA photoAllOk stNormal orderA).1).processed_orders.contains
      "123" = true :=
  ⟨(status_then_unconditional_ledger_add.1 clientA photoAllOk stNormal orderA
      (by decide) (by decide) rfl).1,
   (status_then_unconditional_ledger_add.1 clientA photoAllOk stNormal orderA
      (by decide) (by decide) rfl).2.2.2⟩

/-- Claim C4 (counterexample): the claim says the local fallback store is
consulted whenever the product's own and parent notes are absent, "including
when the product fetch itself returned nothing" — but the fallback lookup
sits inside `if product_data:` (`main.py` 265), so with a failed fetch the
note resolves to `""` even though the store holds a note for the exact SKU. -/
theorem fallback_not_consulted_on_failed_fetch_cex :
    resolveNote (fun _ => none) [("MIN-123-4", "noteX")] itemA none = ("", []) ∧
    skuFallback [("MIN-123-4", "noteX")] itemA = "noteX" ∧
    ("" : String) ≠ "noteX" := by
  decide

/-- Claim C4 (amended): per line item the note is resolved by trying, in
order, (a) the product's own note, (b) the parent product's note when the
product has a truthy variation base id, (c)/(d) the local fallback store
(exact, then fuzzy, via `lookupLocalNote`); the first non-empty result wins
and later steps are skipped — but only when the product fetch returned a
product; when it returned nothing, no step is consulted and the note is
empty. -/
theorem note_resolution_order :
    ∀ (gp : Nat → Option Product) (ln : List (String × String)) (item : Item)
      (pd : Product),
    resolveNote gp ln item none = ("", []) ∧
    ((ownNote pd == "") = false →
       resolveNote gp ln item (some pd) = (ownNote pd, [])) ∧
    ((ownNote pd == "") = true → ((parentLookup gp pd).1 == "") = false →
       resolveNote gp ln item (some pd) = parentLookup gp pd) ∧
    ((ownNote pd == "") = true → ((parentLookup gp pd).1 == "") = true →
       resolveNote gp ln item (some pd) = (skuFallback ln item, (parentLookup gp pd).2)) := by
  intro gp ln item pd
  refine ⟨rfl, ?_, ?_, ?_⟩
  · intro h
    simp only [resolveNote, h, Bool.false_eq_true, if_false]
  · intro h1 h2
    simp only [resolveNote, h1, h2, if_true, Bool.false_eq_true, if_false]
  · intro h1 h2
    simp only [resolveNote, h1, h2, if_true]

/-- Witness for C4 (amended) at concrete inputs: a product with its own note
wins immediately; a bare product with no note and no parent falls through to
the fallback store. -/
theorem note_resolution_order_witness :
    resolveNote (fun _ => some prodA) [("MIN-123-4", "noteX")] itemA (some prodA) =
      ("Price: 100 | Supplier: Acme | Art: X1", []) ∧
    resolveNote (fun _ => none) [("MIN-123-4", "noteX")] itemA (some prodBare) =
      ("noteX", []) :=
  ⟨by
    have h := (note_resolution_order (fun _ => some prodA) [("MIN-123-4", "noteX")]
      itemA prodA).2.1 (by decide)
    simpa using h,
   by
    have h := (note_resolution_order (fun _ => none) [("MIN-123-4", "noteX")]
      itemA prodBare).2.2.2 (by decide) (by decide)
    simpa using h⟩

/-- Claim C5 (counterexample): the claim says the lookup "returns the
exact-key note when the SKU is a stored key" — but an exact key whose stored
note is the empty string is falsy, so the code falls through to the fuzzy
scan and can return a different sibling's note. -/
theorem exact_key_empty_note_cex :
    dictGet? [("A-2", "x"), ("A-1", "")] "A-1" = some "" ∧
    lookupLocalNote [("A-2", "x"), ("A-1", "")] "A-1" = "x" ∧
    ("x" : String) ≠ "" := by
  decide

/-- Claim C5 (amended): the fallback lookup returns the exact-key note when
the SKU is stored with a non-empty note; otherwise (no exact key, or an
empty exact note), when the SKU contains `'-'` it returns the note of the
first stored key (in stored order) starting with everything before the last
`'-'` (empty when no key matches), and the empty string when the SKU has no
`'-'`; the claim's concrete examples hold. -/
theorem local_note_lookup_spec :
    (∀ (notes : List (String × String)) (sku : String),
       (((dictGet? notes sku).getD "" == "") = false →
          lookupLocalNote notes sku = (dictGet? notes sku).getD "") ∧
       (((dictGet? notes sku).getD "" == "") = true → sku.data.contains '-' = true →
          lookupLocalNote notes sku =
            ((notes.find? (fun p => pyStartsWith p.1 (skuBase sku))).map (·.2)).getD "") ∧
       (((dictGet? notes sku).getD "" == "") = true → sku.data.contains '-' = false →
          lookupLocalNote notes sku = "")) ∧
    lookupLocalNote [("MIN-123-1", "noteA")] "MIN-123-4" = "noteA" ∧
    lookupLocalNote [("MIN-123-1", "noteA")] "MIN-999-1" = "" := by
  refine ⟨?_, by decide, by decide⟩
  intro notes sku
  refine ⟨?_, ?_, ?_⟩
  · intro h
    simp only [lookupLocalNote, h, Bool.false_and, Bool.false_eq_true, if_false]
  · intro h1 h2
    simp only [lookupLocalNote, h1, h2, Bool.true_and, if_true]
    cases hf : notes.find? (fun p => pyStartsWith p.1 (skuBase sku)) with
    | none => simp [hf]
    | some p => simp [hf]
  · intro h1 h2
    simp only [lookupLocalNote, h1, h2, Bool.true_and, Bool.false_eq_true, if_false]
    simpa using h1

/-- Witness for C5 (amended): the exact branch on a stored non-empty note,
and the fuzzy branch on the claim's own example. -/
theorem local_note_lookup_spec_witness :
    lookupLocalNote [("K-1", "v")] "K-1" = "v" ∧
    lookupLocalNote [("MIN-123-1", "noteA")] "MIN-123-4" =
      (([("MIN-123-1", "noteA")].find?
          (fun p => pyStartsWith p.1 (skuBase "MIN-123-4"))).map (·.2)).getD "" :=
  ⟨by
    have h := (local_note_lookup_spec.1 [("K-1", "v")] "K-1").1 (by decide)
    simpa using h,
   (local_note_lookup_spec.1 [("MIN-123-1", "noteA")] "MIN-123-4").2.1
     (by decide) (by decide)⟩

/-- Claim C9 (counterexample): a non-empty note with no supplier segment
does NOT render the "unknown supplier" sentinel — the parser always sets the
`supplier` key for a truthy note (possibly to `""`), so `dict.get`'s default
never fires and the rendered supplier line is empty. -/
theorem supplier_sentinel_not_rendered_cex :
    ("Price: 100" == "") = false ∧
    supplierField (parsePrivateNote (some "Price: 100")) = "" ∧
    ("" : String) ≠ UNKNOWN_SUPPLIER := by
  decide

/-- Claim C9 (amended): the supplier field defaults to the "unknown
supplier" sentinel only when the note is empty or absent (then the parsed
dict has no supplier key); for any non-empty note the parser sets the
supplier key, so the sentinel is never rendered.  The purchase price
defaults to its sentinel exactly when the price key is absent, and the model
falls back to the item's SKU when the parsed model is falsy and the SKU is
truthy, else to the "not found" sentinel. -/
theorem render_default_fields :
    supplierField (parsePrivateNote none) = UNKNOWN_SUPPLIER ∧
    supplierField (parsePrivateNote (some "")) = UNKNOWN_SUPPLIER ∧
    (∀ s : String, (s == "") = false →
       ((parsePrivateNote (some s)).supplier).isSome = true) ∧
    (∀ nd : NoteData, nd.purchase_price = none → priceField nd = PRICE_NOT_SPECIFIED) ∧
    (∀ (nd : NoteData) (item : Item) (m : String), nd.model = some m → (m == "") = false →
       modelField nd item = m) ∧
    (∀ (nd : NoteData) (item : Item) (sk : String), truthyOptStr nd.model = false →
       item.sku = some sk → (sk == "") = false → modelField nd item = sk) ∧
    (∀ (nd : NoteData) (item : Item), truthyOptStr nd.model = false →
       truthyOptStr item.sku = false → modelField nd item = ART_NOT_FOUND) := by
  refine ⟨rfl, rfl, ?_, ?_, ?_, ?_, ?_⟩
  · intro s hs
    simp only [parsePrivateNote, hs, Bool.false_eq_true, if_false]
    rw [parseLoop_eq]
    rfl
  · intro nd h
    simp [priceField, h]
  · intro nd item m hm hne
    simp only [modelField, pyOr, hm, hne, Bool.false_eq_true, if_false]
  · intro nd item sk hm hsku hne
    cases hmod : nd.model with
    | none => simp only [modelField, pyOr, hmod, hsku, hne, Bool.false_eq_true, if_false]
    | some v =>
      have hv : (v == "") = true := by
        rw [hmod] at hm
        simpa [truthyOptStr] using hm
      simp only [modelField, pyOr, hmod, hv, if_true, hsku, hne, Bool.false_eq_true, if_false]
  · intro nd item hm hsku
    cases hmod : nd.model with
    | none =>
      cases hsk : item.sku with
      | none => simp only [modelField, pyOr, hmod, hsk]
      | some v =>
        have hv : (v == "") = true := by
          rw [hsk] at hsku
          simpa [truthyOptStr] using hsku
        simp only [modelField, pyOr, hmod, hsk, hv, if_true]
    | some v =>
      have hv : (v == "") = true := by
        rw [hmod] at hm
        simpa [truthyOptStr] using hm
      cases hsk : item.sku with
      | none => simp only [modelField, pyOr, hmod, hsk, hv, if_true]
      | some w =>
        have hw : (w == "") = true := by
          rw [hsk] at hsku
          simpa [truthyOptStr] using hsku
        simp only [modelField, pyOr, hmod, hsk, hv, hw, if_true]

/-- Witness for C9 (amended) at concrete inputs. -/
theorem render_default_fields_witness :
    ((parsePrivateNote (some "Price: 100")).supplier).isSome = true ∧
    priceField { purchase_price := none, model := none, supplier := none } =
      PRICE_NOT_SPECIFIED ∧
    modelField { purchase_price := none, model := some "", supplier := none } itemA =
      "MIN-123-4" ∧
    modelField { purchase_price := none, model := none, supplier := none }
      { id := 1, sku := none, name := "", quantity := 1 } = ART_NOT_FOUND :=
  ⟨render_default_fields.2.2.1 "Price: 100" (by decide),
   render_default_fields.2.2.2.1 _ rfl,
   render_default_fields.2.2.2.2.2.1 _ itemA "MIN-123-4" (by decide) (by decide) (by decide),
   render_default_fields.2.2.2.2.2.2 _ _ (by decide) (by decide)⟩

-- Seeding lemmas for the first-run ledger (used by claim C10)

theorem seedOrders_mono (os : List Order) (acc : List String) (x : String)
    (h : acc.contains x = true) : (seedOrders os acc).contains x = true := by
  induction os generalizing acc with
  | nil => exact h
  | cons o rest ih => exact ih _ (contains_insertStr_of _ _ _ h)

theorem seedOrders_mem (os : List Order) (acc : List String) (o : Order)
    (h : o ∈ os) : (seedOrders os acc).contains (pyStr o.id) = true := by
  induction os generalizing acc with
  | nil => cases h
  | cons o0 rest ih =>
    rcases List.mem_cons.mp h with h0 | h0
    · subst h0
      exact seedOrders_mono rest _ _ (contains_insertStr_self _ _)
    · exact ih _ h0

theorem seedStatusList_mono (c : ClientEnv) (statuses : List String)
    (acc : List String) (x : String) (h : acc.contains x = true) :
    (seedStatusList c statuses acc).contains x = true := by
  induction statuses generalizing acc with
  | nil => exact h
  | cons s rest ih => exact ih _ (seedOrders_mono _ _ _ h)

theorem seedStatusList_mem (c : ClientEnv) (statuses : List String)
    (acc : List String) (status : String) (o : Order)
    (hs : status ∈ statuses) (ho : o ∈ c.getOrders status) :
    (seedStatusList c statuses acc).contains (pyStr o.id) = true := by
  induction statuses generalizing acc with
  | nil => cases hs
  | cons s rest ih =>
    rcases List.mem_cons.mp hs with h0 | h0
    · subst h0
      exact seedStatusList_mono c rest _ _ (seedOrders_mem _ _ _ ho)
    · exact ih _ h0

theorem seedClients_mono (clients : List ClientEnv) (acc : List String)
    (x : String) (h : acc.contains x = true) :
    (seedClients clients acc).contains x = true := by
  induction clients generalizing acc with
  | nil => exact h
  | cons c rest ih => exact ih _ (seedStatusList_mono _ _ _ _ h)

theorem seedClients_mem (clients : List ClientEnv) (acc : List String)
    (c : ClientEnv) (status : String) (o : Order)
    (hc : c ∈ clients) (hs : status ∈ TARGET_STATUSES) (ho : o ∈ c.getOrders status) :
    (seedClients clients acc).contains (pyStr o.id) = true := by
  induction clients generalizing acc with
  | nil => cases hc
  | cons c0 rest ih =>
    rcases List.mem_cons.mp hc with h0 | h0
    · subst h0
      exact seedClients_mono rest _ _ (seedStatusList_mem c _ _ _ _ hs ho)
    · exact ih _ h0

/-- Claim C10: every identifier placed in the ledger is the `str` form of
the upstream id — `str` maps the integer `123` and the string `"123"` to the
same entry; the per-order save stores `str(id)`, the first-run seeding
stores `str(id)` for every visible order, and the skip check tests the `str`
form, so an order arriving with integer id 123 and one arriving with string
id `"123"` denote the same ledger entry (the second is skipped after the
first is saved). -/
theorem ledger_string_form :
    pyStr (PyId.int 123) = pyStr (PyId.str "123") ∧
    (∀ (st : PState) (oid : PyId),
       (saveProcessedOrder st (pyStr oid)).processed_orders.contains (pyStr oid) = true) ∧
    (∀ (clients : List ClientEnv) (st : PState) (c : ClientEnv) (status : String) (o : Order),
       c ∈ clients → status ∈ TARGET_STATUSES → o ∈ c.getOrders status →
       ((markCurrentOrdersProcessed clients st).processed_orders).contains (pyStr o.id) = true) ∧
    (∀ (c : ClientEnv) (pOk : String → Bool) (st : PState) (o o' : Order),
       o.id = PyId.int 123 → o'.id = PyId.str "123" →
       processSingleOrder c pOk (saveProcessedOrder st (pyStr o.id)) o' =
         (saveProcessedOrder st (pyStr o.id), noEffects)) := by
  refine ⟨rfl, fun st oid => saveProcessedOrder_contains_self st (pyStr oid), ?_, ?_⟩
  · intro clients st c status o hc hs ho
    exact seedClients_mem clients st.processed_orders c status o hc hs ho
  · intro c pOk st o o' h1 h2
    have hid : pyStr o'.id = pyStr o.id := by rw [h1, h2]; decide
    have hmem : (saveProcessedOrder st (pyStr o.id)).processed_orders.contains
        (pyStr o'.id) = true := by
      rw [hid]
      exact saveProcessedOrder_contains_self st (pyStr o.id)
    exact processSingleOrder_skip c pOk _ o' hmem

/-- Witness for C10: seeding a one-client world ledgers `"123"`, and the
string-id twin of the integer-id order is skipped after the save. -/
theorem ledger_string_form_witness :
    ((markCurrentOrdersProcessed [clientA] stNormal).processed_orders).contains
      (pyStr orderA.id) = true ∧
    processSingleOrder clientA photoAllOk (saveProcessedOrder stNormal (pyStr orderA.id))
      orderAStr = (saveProcessedOrder stNormal (pyStr orderA.id), noEffects) :=
  ⟨ledger_string_form.2.2.1 [clientA] stNormal clientA "received" orderA
      (by simp) (by decide) (by decide),
   ledger_string_form.2.2.2 clientA photoAllOk stNormal orderA orderAStr rfl rfl⟩
